import Mathlib

/-!
Shallow embedding of the AI-Log-Analyst DFIR pipeline
(`api/timeline.py`, `api/embedder.py`, `api/ingest_utils.py`)
with theorems settling the frozen claims about its specification.

Python machine-level collaborators (the stdlib ISO-8601 parser, the JSON
decoder, the filesystem walk order) are modelled at the boundary: file
listings become explicit lists, a physical line of a JSON-lines file becomes
either `blank` (whitespace only), `malformed` (JSON decode raises) or a
decoded record, and `datetime.fromisoformat` is reimplemented below for the
grammar fragment the repository exercises.
-/

namespace AILog

/-! ### Small Python-behaviour helpers -/

/-- Model of Python `str.strip()`: drop leading and trailing whitespace. -/
def pyStrip (s : String) : String :=
  String.mk (((s.data.dropWhile Char.isWhitespace).reverse.dropWhile
      Char.isWhitespace).reverse)

/-- ASCII lower-casing of one character (model of `str.lower()` per char). -/
def lowerChar (c : Char) : Char :=
  if 'A' ≤ c && c ≤ 'Z' then Char.ofNat (c.toNat + 32) else c

/-- Model of Python `str.lower()` (ASCII fragment). -/
def pyLower (s : String) : String :=
  String.mk (s.data.map lowerChar)

/-- Suffix test on the character list (model of `str.endswith`). -/
def endsWithL (s suffix : String) : Bool :=
  suffix.data.isSuffixOf s.data

/-- Model of Python `a or dflt` for an optional string `a`
(`None` and `""` are both falsy). -/
def pyOr (o : Option String) (dflt : String) : String :=
  match o with
  | none => dflt
  | some s => if s = "" then dflt else s

/-- Left-pad the decimal rendering of `n` with zeros to width `w`. -/
def padNum (n w : Nat) : String :=
  let s := toString n
  String.mk (List.replicate (w - s.length) '0' ++ s.data)

/-! ### Datetimes (`datetime.datetime`)

A Python datetime is its seven calendar fields plus an optional fixed UTC
offset (`tzinfo`); `tzOffsetMinutes = none` models a naive datetime. -/

structure PyDateTime where
  year : Nat
  month : Nat
  day : Nat
  hour : Nat
  minute : Nat
  second : Nat
  microsecond : Nat
  tzOffsetMinutes : Option Int
deriving DecidableEq, Repr

/-- Mixed-radix sort key over the wall-clock fields.  Every radix strictly
bounds the corresponding field of any datetime built by the parser below or
by the sentinel, so `dtKey a ≤ dtKey b` agrees with Python's
field-lexicographic comparison of naive datetimes on all values the
pipeline sorts. -/
def dtKey (d : PyDateTime) : Nat :=
  (((((d.year * 13 + d.month) * 32 + d.day) * 24 + d.hour) * 60 + d.minute)
      * 60 + d.second) * 1000000 + d.microsecond

/-- Days since 1970-01-01 of a civil date (standard era/day-of-era
computation, all intermediate arithmetic non-negative). -/
def daysFromCivil (y m d : Nat) : Int :=
  let y2 := if m ≤ 2 then y - 1 else y
  let era := y2 / 400
  let yoe := y2 - era * 400
  let mp := if m > 2 then m - 3 else m + 9
  let doy := (153 * mp + 2) / 5 + (d - 1)
  let doe := yoe * 365 + yoe / 4 - yoe / 100 + doy
  (era * 146097 + doe : Int) - 719468

/-- The real instant a (possibly offset-carrying) datetime denotes, in
microseconds since the epoch; a naive datetime is read as offset zero.
Used only to *state* which strings denote the same physical instant. -/
def realInstantMicros (d : PyDateTime) : Int :=
  (daysFromCivil d.year d.month d.day * 86400
      + (d.hour : Int) * 3600 + (d.minute : Int) * 60 + (d.second : Int))
      * 1000000 + (d.microsecond : Int)
      - (d.tzOffsetMinutes.getD 0) * 60 * 1000000

/-! ### `datetime.fromisoformat` model -/

/-- Read exactly `n` decimal digits, returning their value and the rest. -/
def takeDigits (n : Nat) (cs : List Char) : Option (Nat × List Char) :=
  let ds := cs.take n
  if ds.length = n && ds.all Char.isDigit then
    some (ds.foldl (fun a c => a * 10 + (c.toNat - 48)) 0, cs.drop n)
  else none

/-- Require character `c` next. -/
def expectChar (c : Char) : List Char → Option (List Char)
  | [] => none
  | x :: xs => if x = c then some xs else none

def isLeap (y : Nat) : Bool :=
  (y % 4 = 0 && y % 100 ≠ 0) || y % 400 = 0

def daysInMonth (y m : Nat) : Nat :=
  if m = 2 then (if isLeap y then 29 else 28)
  else if m = 4 || m = 6 || m = 9 || m = 11 then 30
  else 31

/-- Fractional-second digits (1 to 6) after the dot, scaled to microseconds. -/
def parseFracDigits (cs : List Char) : Option (Nat × List Char) :=
  let ds := cs.takeWhile Char.isDigit
  if ds.length = 0 || ds.length > 6 then none
  else
    some ((ds.foldl (fun a c => a * 10 + (c.toNat - 48)) 0)
        * 10 ^ (6 - ds.length), cs.drop ds.length)

/-- Trailing UTC-offset suffix: end of input (naive), `Z`, or `±HH:MM`. -/
def parseOffsetEnd : List Char → Option (Option Int)
  | [] => some none
  | c :: cs =>
    if c = 'Z' && cs = [] then some (some 0)
    else if c = '+' || c = '-' then
      match takeDigits 2 cs with
      | none => none
      | some (oh, cs2) =>
        match expectChar ':' cs2 with
        | none => none
        | some cs3 =>
          match takeDigits 2 cs3 with
          | none => none
          | some (om, cs4) =>
            if cs4 = [] && oh ≤ 23 && om ≤ 59 then
              some (some (if c = '-' then -((oh * 60 + om : Nat) : Int)
                          else ((oh * 60 + om : Nat) : Int)))
            else none
    else none

/-- `[:SS[.ffffff]]` followed by the optional offset suffix. -/
def parseSecFracTz : List Char → Option (Nat × Nat × Option Int)
  | ':' :: cs => do
    let (s, cs2) ← takeDigits 2 cs
    if s > 59 then none
    else
      match cs2 with
      | '.' :: cs3 => do
        let (us, cs4) ← parseFracDigits cs3
        let tz ← parseOffsetEnd cs4
        pure (s, us, tz)
      | rest => do
        let tz ← parseOffsetEnd rest
        pure (s, 0, tz)
  | cs => do
    let tz ← parseOffsetEnd cs
    pure (0, 0, tz)

/-- Modelled from the Python stdlib: `datetime.fromisoformat`, restricted to
the grammar the repository's inputs exercise —
`YYYY-MM-DD[{T,space}HH:MM[:SS[.f{1,6}]][Z|±HH:MM]]` with full calendar
validation.  Returns `none` where CPython raises `ValueError`. -/
def fromisoformat (s : String) : Option PyDateTime := do
  let cs := s.data
  let (y, cs) ← takeDigits 4 cs
  let cs ← expectChar '-' cs
  let (mo, cs) ← takeDigits 2 cs
  let cs ← expectChar '-' cs
  let (d, cs) ← takeDigits 2 cs
  if y < 1 || mo < 1 || mo > 12 || d < 1 || d > daysInMonth y mo then none
  else
    match cs with
    | [] => pure ⟨y, mo, d, 0, 0, 0, 0, none⟩
    | sep :: rest =>
      if sep ≠ 'T' && sep ≠ ' ' then none
      else do
        let (h, cs2) ← takeDigits 2 rest
        let cs3 ← expectChar ':' cs2
        let (mi, cs4) ← takeDigits 2 cs3
        if h > 23 || mi > 59 then none
        else do
          let (sec, us, tz) ← parseSecFracTz cs4
          pure ⟨y, mo, d, h, mi, sec, us, tz⟩

/-! ### `api/timeline.py` : the Timestamp Normalizer -/

/-- Embedding of `timeline._parse_timestamp`: `None`/empty input is
unparseable; a parse failure (a raised `ValueError`) is caught and becomes
`none`; an offset-aware result has its `tzinfo` dropped
(`dt.replace(tzinfo=None)`), keeping the wall-clock fields. -/
def _parse_timestamp (ts : Option String) : Option PyDateTime :=
  match ts with
  | none => none
  | some s =>
    if s = "" then none
    else
      match fromisoformat s with
      | none => none
      | some dt =>
        some (if dt.tzOffsetMinutes.isSome then
                { dt with tzOffsetMinutes := none }
              else dt)

/-! ### `api/timeline.py` : records, files and the Timeline Fuser -/

/-- `datetime.isoformat()` on a naive datetime:
`YYYY-MM-DDTHH:MM:SS[.ffffff]`. -/
def PyDateTime.isoformat (d : PyDateTime) : String :=
  padNum d.year 4 ++ "-" ++ padNum d.month 2 ++ "-" ++ padNum d.day 2 ++ "T"
    ++ padNum d.hour 2 ++ ":" ++ padNum d.minute 2 ++ ":" ++ padNum d.second 2
    ++ (if d.microsecond = 0 then "" else "." ++ padNum d.microsecond 6)

/-- A decoded record of an EVTX derivative JSON line.  Optional fields model
`dict.get` misses; `data` is the field map in Python dict iteration order,
with JSON scalar values rendered as the strings the f-strings produce. -/
structure EvtxRecord where
  timestamp : Option String
  event_id : Option Int
  channel : Option String
  computer : Option String
  data : List (String × String)
deriving DecidableEq, Repr

/-- A decoded record of a registry derivative JSON line.  `last_write` is
`some s` exactly when the JSON field is present and a string (the
`isinstance(lw, str)` guard). -/
structure RegRecord where
  hive : Option String
  category : Option String
  key_path : Option String
  value_name : Option String
  value : Option String
  last_write : Option String
deriving DecidableEq, Repr

/-- One physical line of a JSON-lines file, as the loader loop sees it:
whitespace-only (skipped by the `strip` test), JSON-undecodable
(`json.loads` raises, skipped), or a decoded record. -/
inductive JsonLine (α : Type) where
  | blank
  | malformed
  | record (r : α)
deriving DecidableEq, Repr

/-- A directory entry: file name plus its lines.  Directory listings keep
`os.listdir` order. -/
structure FileEntry (α : Type) where
  name : String
  lines : List (JsonLine α)
deriving DecidableEq, Repr

/-- Inputs of one `build_timeline` call: the two artifact subdirectories
(`none` models `os.path.isdir` false). -/
structure CaseDir where
  evtxDir : Option (List (FileEntry EvtxRecord))
  registryDir : Option (List (FileEntry RegRecord))
deriving DecidableEq, Repr

/-- An element of the in-memory `timeline`/`events` list (a Python dict)
before `sort_ts` is popped. -/
structure TimelineEvent where
  timestamp : String
  sort_ts : PyDateTime
  source : String
  channel : String
  computer : String
  event_id : Option Int
  description : String
deriving DecidableEq, Repr

/-- The dict returned to the caller, after `e.pop("sort_ts", None)`. -/
structure TimelineEntry where
  timestamp : String
  source : String
  channel : String
  computer : String
  event_id : Option Int
  description : String
deriving DecidableEq, Repr

def dropSort (e : TimelineEvent) : TimelineEntry :=
  ⟨e.timestamp, e.source, e.channel, e.computer, e.event_id, e.description⟩

/-- The prioritized field list of `_load_evtx_events`. -/
def evtxInterestingKeys : List String :=
  ["SubjectUserName", "SubjectDomainName", "TargetUserName", "IpAddress",
   "ProcessName", "CommandLine", "ServiceName", "EventType", "LogonType"]

/-- Python truthiness of a rendered field value. -/
def truthy (s : String) : Bool := s ≠ ""

/-- The `pieces` list of `_load_evtx_events`: prioritized
`key=value` pairs, falling back to the first five non-empty map entries. -/
def evtxPieces (data : List (String × String)) : List String :=
  let pri := evtxInterestingKeys.filterMap fun k =>
    match data.lookup k with
    | some v => if truthy v then some (k ++ "=" ++ v) else none
    | none => none
  if pri = [] then
    (data.take 5).filterMap fun kv =>
      if truthy kv.2 then some (kv.1 ++ "=" ++ kv.2) else none
  else pri

/-- Processing of one EVTX line inside the loader loop.  A record whose
timestamp fails normalization is skipped (`continue`), exactly like a blank
or malformed line. -/
def evtxLineEvent (l : JsonLine EvtxRecord) : Option TimelineEvent :=
  match l with
  | .blank => none
  | .malformed => none
  | .record evt =>
    match _parse_timestamp evt.timestamp with
    | none => none
    | some ts =>
      some { timestamp := ts.isoformat
             sort_ts := ts
             source := "evtx"
             channel := pyOr evt.channel ""
             computer := pyOr evt.computer ""
             event_id := evt.event_id
             description := String.intercalate " " (evtxPieces evt.data) }

/-- Embedding of `timeline._load_evtx_events`. -/
def _load_evtx_events (c : CaseDir) : List TimelineEvent :=
  match c.evtxDir with
  | none => []
  | some files =>
    files.flatMap fun f =>
      if endsWithL (pyLower f.name) ".jsonl" then
        f.lines.filterMap evtxLineEvent
      else []

/-- The sentinel `datetime(MAXYEAR, 12, 31)` used for registry records
without a usable `last_write`. -/
def sentinelDT : PyDateTime := ⟨9999, 12, 31, 0, 0, 0, 0, none⟩

/-- Processing of one registry line inside the loader loop. -/
def regLineEvent (l : JsonLine RegRecord) : Option TimelineEvent :=
  match l with
  | .blank => none
  | .malformed => none
  | .record evt =>
    let hive := pyOr evt.hive "UNKNOWN_HIVE"
    let category := pyOr evt.category "registry"
    let key_path := pyOr evt.key_path ""
    let value_name := pyOr evt.value_name ""
    let value := evt.value.getD ""
    let tsPair : PyDateTime × String :=
      match evt.last_write.bind (fun lw => _parse_timestamp (some lw)) with
      | none => (sentinelDT, "UNKNOWN_TIME")
      | some t => (t, t.isoformat)
    some { timestamp := tsPair.2
           sort_ts := tsPair.1
           source := "registry"
           channel := ""
           computer := ""
           event_id := none
           description := "category=" ++ category ++ " HIVE=" ++ hive
             ++ " Key=" ++ key_path ++ " Name=" ++ value_name
             ++ " Value=" ++ value }

/-- Embedding of `timeline._load_registry_events`. -/
def _load_registry_events (c : CaseDir) : List TimelineEvent :=
  match c.registryDir with
  | none => []
  | some files =>
    files.flatMap fun f =>
      if endsWithL (pyLower f.name) ".jsonl" then
        f.lines.filterMap regLineEvent
      else []

/-- The order `events.sort(key=lambda e: e["sort_ts"])` sorts by:
ascending naive-datetime order of the sort key. -/
def eventRel : TimelineEvent → TimelineEvent → Prop :=
  fun a b => dtKey a.sort_ts ≤ dtKey b.sort_ts

instance : DecidableRel eventRel := fun a b => Nat.decLe (dtKey a.sort_ts) (dtKey b.sort_ts)

instance : IsTotal TimelineEvent eventRel :=
  ⟨fun a b => Nat.le_total (dtKey a.sort_ts) (dtKey b.sort_ts)⟩

instance : IsTrans TimelineEvent eventRel := ⟨fun _ _ _ => Nat.le_trans⟩

/-- Embedding of `timeline.build_timeline` up to (and including) the sort,
before the `sort_ts` pop.  Python's `list.sort` is a stable ascending sort;
a stable sort's output is uniquely determined by the key order, so the
(stable) insertion sort is the same function on every input. -/
def build_timeline_sorted (c : CaseDir) : List TimelineEvent :=
  (_load_evtx_events c ++ _load_registry_events c).insertionSort eventRel

/-- Embedding of `timeline.build_timeline`: EVTX events, then registry
events, stably sorted ascending by `sort_ts`, then `sort_ts` popped.
It takes no limit and no direction argument. -/
def build_timeline (c : CaseDir) : List TimelineEntry :=
  (build_timeline_sorted c).map dropSort

/-! ### `api/embedder.py`

The SentenceTransformer model and the Chroma client are external
collaborators; what this core contributes is the id assignment and the
shape of the data handed to `coll.add` / returned from `coll.query`.
Numeric distances are modelled as integers: the claims concern only their
labelling and pass-through, never their arithmetic. -/

/-- The metadata dict attached to one chunk. -/
structure ChunkMeta where
  source : String
  case_id : String
  file : String
deriving DecidableEq, Repr

/-- One `coll.add(...)` call: the ids, documents and metadatas submitted
(vectors come verbatim from the external encoder and are omitted). -/
structure AddedBatch where
  ids : List String
  documents : List String
  metadatas : List ChunkMeta
deriving DecidableEq, Repr

/-- The id list `[f"{case_id}_{i}" for i in range(len(texts))]` of
`embed_texts`: a positional index, not a random token. -/
def embed_texts_ids (case_id : String) (n : Nat) : List String :=
  (List.range n).map fun i => case_id ++ "_" ++ toString i

/-- Embedding of `embedder.embed_texts`: `none` models the early return on
an empty text list (nothing submitted to the store); otherwise the triple
handed to `coll.add`. -/
def embed_texts (case_id : String) (texts : List String)
    (metadata_list : List ChunkMeta) : Option AddedBatch :=
  if texts.isEmpty then none
  else some ⟨embed_texts_ids case_id texts.length, texts, metadata_list⟩

/-- A JSON value appearing in a search hit. -/
inductive JVal where
  | s (v : String)
  | n (v : Int)
  | m (v : List (String × String))
deriving DecidableEq, Repr

/-- The store's reply to `coll.query` for the single query vector:
`res["ids"][0]`, `res["distances"][0]`, `res["documents"][0]`,
`res["metadatas"][0]`. -/
structure QueryResult where
  ids : List String
  distances : List Int
  documents : List String
  metadatas : List (List (String × String))
deriving DecidableEq, Repr

/-- The normalization loop of `embedder.semantic_search`: hit `i` is the
dict `{"id": ..., "score": ..., "text": ..., "metadata": ...}`, with the
store's distance stored under the key `"score"`.  Hits are modelled as
key/value lists so the dict keys are first-class. -/
def semantic_search_hits (res : QueryResult) : List (List (String × JVal)) :=
  (List.range res.ids.length).map fun i =>
    [("id", JVal.s (res.ids.getD i "")),
     ("score", JVal.n (res.distances.getD i 0)),
     ("text", JVal.s (res.documents.getD i "")),
     ("metadata", JVal.m (res.metadatas.getD i []))]

/-! ### `api/ingest_utils.py` -/

def TEXT_EXTENSIONS : List String := [".txt", ".log", ".json", ".csv", ".md"]

def REGISTRY_EXTENSIONS : List String := [".dat", ".hiv", ".hive", ".reg"]

/-- `os.path.splitext(...)[1]`: the extension from the last dot of the name,
with leading dots of the base name not counting as a separator. -/
def extOf (name : String) : String :=
  let cs := name.data
  let base := cs.dropWhile (· = '.')
  if base.contains '.' then
    String.mk ('.' :: (base.reverse.takeWhile (· ≠ '.')).reverse)
  else ""

/-- A chunk together with its metadata (the code keeps `text_chunks` and
`metadata_list` as two lists appended in lockstep). -/
structure Chunk where
  text : String
  meta : ChunkMeta
deriving DecidableEq, Repr

/-- One file met by the `os.walk` loop of `build_and_index_case_corpus`.
`regStats` is the reply of the external `generate_registry_derivatives`
collaborator (events count, lines of its `txt_path`) if it were invoked for
this path; `content` is the file's text if it were opened as plain text
(`none` models a raised read error).  Which field the run consumes is
decided by the extension dispatch in the embedding itself, as in the code. -/
structure WalkFile where
  filename : String
  relpath : String
  regStats : Nat × List String
  content : Option String
deriving DecidableEq, Repr

/-- Inputs of one `build_and_index_case_corpus` run: the `.txt` listing of
`artifacts/evtx` (step 1; `none` models a missing directory) and the
`os.walk` file sequence (step 2). -/
structure IngestCase where
  evtxTxtFiles : Option (List (String × List String))
  walkFiles : List WalkFile
deriving DecidableEq, Repr

/-- What one ingestion run produces: the collected chunk stream, the final
contents of the two summary files (both opened with mode `"w"`, so both
start empty), the `coll.add` batches, and the returned count. -/
structure IngestResult where
  chunks : List Chunk
  evtxSummary : List String
  regSummary : List String
  batches : List AddedBatch
  returnCount : Nat
deriving DecidableEq, Repr

/-- Step 1 of `build_and_index_case_corpus`: every non-blank stripped line
of every `*.txt` file under `artifacts/evtx` becomes one chunk. -/
def evtxStepChunks (cid : String) (files : List (String × List String)) :
    List Chunk :=
  files.flatMap fun f =>
    if endsWithL f.1 ".txt" then
      f.2.filterMap fun line =>
        let l := pyStrip line
        if l = "" then none
        else some ⟨l, ⟨"evtx", cid, "artifacts/evtx/" ++ f.1⟩⟩
    else []

/-- Step 2, one file of the walk: chunks contributed and lines written to
`registry_summaries.jsonl`.  Nothing is ever written to
`evtx_summaries.jsonl` anywhere in the function. -/
def walkFileChunks (cid : String) (wf : WalkFile) :
    List Chunk × List String :=
  if wf.filename = "evtx_summaries.jsonl"
      || wf.filename = "registry_summaries.jsonl" then ([], [])
  else
    let ext := pyLower (extOf wf.filename)
    if ext ∈ REGISTRY_EXTENSIONS then
      if wf.regStats.1 > 0 then
        let ls := wf.regStats.2.filterMap fun line =>
          let l := pyStrip line
          if l = "" then none else some l
        (ls.map fun l => ⟨l, ⟨"registry", cid, wf.relpath⟩⟩, ls)
      else ([], [])
    else if ext ∈ TEXT_EXTENSIONS then
      match wf.content with
      | none => ([], [])
      | some raw =>
        let content := pyStrip raw
        if content = "" then ([], [])
        else ([⟨content, ⟨"file", cid, wf.relpath⟩⟩], [])
    else ([], [])

/-- `range(0, total, 5000)` slicing: split a list into chunks of 5000
(`max_batch`), the last one possibly smaller. -/
def batchSlices : List Chunk → List (List Chunk)
  | [] => []
  | l@(_ :: _) => l.take 5000 :: batchSlices (l.drop 5000)
  termination_by l => l.length
  decreasing_by
    simp only [List.length_drop]
    simp_all [List.length_pos]
    omega

/-- Embedding of `ingest_utils.build_and_index_case_corpus`.  Both summary
files are opened with mode `"w"` (truncated) before the walk; only
`reg_summary_f.write` occurs in the body, so the evtx summary's final
content is empty. -/
def build_and_index_case_corpus (c : IngestCase) (cid : String) :
    IngestResult :=
  let step1 := match c.evtxTxtFiles with
    | none => []
    | some files => evtxStepChunks cid files
  let walkResults := c.walkFiles.map (walkFileChunks cid)
  let chunks := step1 ++ (walkResults.map Prod.fst).flatten
  let regSummary := (walkResults.map Prod.snd).flatten
  { chunks := chunks
    evtxSummary := []
    regSummary := regSummary
    batches := (batchSlices chunks).filterMap fun b =>
      embed_texts cid (b.map Chunk.text) (b.map Chunk.meta)
    returnCount := chunks.length }

/-! ### Concrete inputs used by counterexamples and witnesses -/

/-- Fallback entries for positional access (`List.getD`). -/
def defaultEvent : TimelineEvent :=
  ⟨"", ⟨1, 1, 1, 0, 0, 0, 0, none⟩, "", "", "", none, ""⟩

def defaultEntry : TimelineEntry := ⟨"", "", "", "", none, ""⟩

/-- A metadata dict for single-chunk ingestion calls. -/
def meta0 : ChunkMeta := ⟨"file", "case1", "notes.txt"⟩

/-- An EVTX record whose timestamp normalizes fine. -/
def rOk : EvtxRecord := ⟨some "2024-01-01T00:00:00", none, none, none, []⟩

/-- A case whose single EVTX derivative file holds 201 parseable records. -/
def bigCase : CaseDir :=
  ⟨some [⟨"security.jsonl", List.replicate 201 (.record rOk)⟩], none⟩

/-- A syntactically valid EVTX record whose timestamp fails normalization. -/
def rBad : EvtxRecord := ⟨some "garbage", some 1, none, none, [("K", "v")]⟩

def c3case : CaseDir := ⟨some [⟨"security.jsonl", [.record rBad]⟩], none⟩

/-- A known-time EVTX record whose instant lies after the unknown-time
sentinel `datetime(9999, 12, 31)`. -/
def rLate : EvtxRecord := ⟨some "9999-12-31T12:00:00", none, none, none, []⟩

/-- A registry record without `last_write`: an unknown-time event. -/
def regUnknown0 : RegRecord :=
  ⟨some "SOFTWARE", some "run_key", some "K", some "N", some "V", none⟩

def c4case : CaseDir :=
  ⟨some [⟨"security.jsonl", [.record rLate]⟩],
   some [⟨"software.jsonl", [.record regUnknown0]⟩]⟩

def rW1 : EvtxRecord := ⟨some "2024-01-01T00:00:00", none, none, none, []⟩

def rW2 : EvtxRecord := ⟨some "2024-01-02T00:00:00", none, none, none, []⟩

/-- A case with two known-time events, given newest first. -/
def c5case : CaseDir :=
  ⟨some [⟨"security.jsonl", [.record rW2, .record rW1]⟩], none⟩

/-- A 500-character field value. -/
def longVal : String := String.mk (List.replicate 500 'a')

def rLong : EvtxRecord :=
  ⟨some "2024-01-01T00:00:00", none, none, none, [("CommandLine", longVal)]⟩

def c6case : CaseDir := ⟨some [⟨"security.jsonl", [.record rLong]⟩], none⟩

/-- A one-hit store reply with distance 7. -/
def res0 : QueryResult := ⟨["a"], [7], ["t"], [[("k", "v")]]⟩

/-- A case whose `artifacts/evtx` holds one derivative text file with one
non-blank line. -/
def ingestCase0 : IngestCase :=
  ⟨some [("events.txt", ["hello world", "  "])], []⟩

/-- Two EVTX records on the same day: local clocks 10:00+00:00 and
23:00+14:00, so the second denotes the *earlier* real instant (09:00 UTC). -/
def rT1 : EvtxRecord := ⟨some "2026-01-05T10:00:00+00:00", none, none, none, []⟩

def rT2 : EvtxRecord := ⟨some "2026-01-05T23:00:00+14:00", none, none, none, []⟩

def cwCase : CaseDir := ⟨some [⟨"w.jsonl", [.record rT1, .record rT2]⟩], none⟩

/-! ### Sanity checks of the parser model -/

example : fromisoformat "2024-01-02T03:04:05+06:30" =
    some ⟨2024, 1, 2, 3, 4, 5, 0, some 390⟩ := by decide

example : fromisoformat "2024-02-30T00:00:00" = none := by decide

example : fromisoformat "2024-01-02" = some ⟨2024, 1, 2, 0, 0, 0, 0, none⟩ := by
  decide

example : fromisoformat "garbage" = none := by decide

example : _parse_timestamp (some "2024-01-02T03:04:05.250Z") =
    some ⟨2024, 1, 2, 3, 4, 5, 250000, none⟩ := by decide

example : PyDateTime.isoformat ⟨2024, 1, 2, 3, 4, 5, 0, none⟩
    = "2024-01-02T03:04:05" := by decide

/-! ### Helper lemmas -/

/-- The rendering `ts.isoformat()` always contains a colon, so it can never
be the registry marker string. -/
theorem isoformat_ne_unknown (d : PyDateTime) :
    PyDateTime.isoformat d ≠ "UNKNOWN_TIME" := by
  intro h
  have hd : (PyDateTime.isoformat d).data = "UNKNOWN_TIME".data := by rw [h]
  have hc : ':' ∈ (PyDateTime.isoformat d).data := by
    simp [PyDateTime.isoformat, String.data_append]
  rw [hd] at hc
  simp at hc

theorem intercalate_single (x : String) : String.intercalate " " [x] = x := by
  simp [String.intercalate, String.intercalate.go]

/-- Every event loaded from EVTX derivatives has an isoformat timestamp
string (its normalization succeeded). -/
theorem mem_load_evtx (c : CaseDir) (e : TimelineEvent)
    (he : e ∈ _load_evtx_events c) :
    ∃ d : PyDateTime, e.timestamp = PyDateTime.isoformat d := by
  unfold _load_evtx_events at he
  cases hdir : c.evtxDir with
  | none => rw [hdir] at he; simp at he
  | some files =>
    rw [hdir] at he
    rw [List.mem_flatMap] at he
    obtain ⟨f, _, hf⟩ := he
    by_cases hjs : endsWithL (pyLower f.name) ".jsonl" = true
    · rw [if_pos hjs, List.mem_filterMap] at hf
      obtain ⟨l, _, hl⟩ := hf
      cases l with
      | blank => simp [evtxLineEvent] at hl
      | malformed => simp [evtxLineEvent] at hl
      | record evt =>
        cases hts : _parse_timestamp evt.timestamp with
        | none => simp [evtxLineEvent, hts] at hl
        | some ts =>
          simp [evtxLineEvent, hts] at hl
          exact ⟨ts, by rw [← hl]⟩
    · rw [if_neg hjs] at hf; simp at hf

/-- Every event loaded from registry derivatives either is the unknown-time
shape (marker string and sentinel sort key together) or has an isoformat
timestamp. -/
theorem mem_load_registry (c : CaseDir) (e : TimelineEvent)
    (he : e ∈ _load_registry_events c) :
    (e.timestamp = "UNKNOWN_TIME" ∧ e.sort_ts = sentinelDT)
    ∨ ∃ d : PyDateTime, e.timestamp = PyDateTime.isoformat d := by
  unfold _load_registry_events at he
  cases hdir : c.registryDir with
  | none => rw [hdir] at he; simp at he
  | some files =>
    rw [hdir] at he
    rw [List.mem_flatMap] at he
    obtain ⟨f, _, hf⟩ := he
    by_cases hjs : endsWithL (pyLower f.name) ".jsonl" = true
    · rw [if_pos hjs, List.mem_filterMap] at hf
      obtain ⟨l, _, hl⟩ := hf
      cases l with
      | blank => simp [regLineEvent] at hl
      | malformed => simp [regLineEvent] at hl
      | record evt =>
        cases hts : evt.last_write.bind (fun lw => _parse_timestamp (some lw)) with
        | none =>
          simp [regLineEvent, hts] at hl
          exact Or.inl ⟨by rw [← hl], by rw [← hl]⟩
        | some t =>
          simp [regLineEvent, hts] at hl
          exact Or.inr ⟨t, by rw [← hl]⟩
    · rw [if_neg hjs] at hf; simp at hf

/-- In the sorted timeline, an event carrying the unknown marker carries
the sentinel sort key. -/
theorem unknown_sort_sentinel (c : CaseDir) (e : TimelineEvent)
    (he : e ∈ build_timeline_sorted c)
    (ht : e.timestamp = "UNKNOWN_TIME") : e.sort_ts = sentinelDT := by
  have hm := (List.perm_insertionSort eventRel _).mem_iff.mp he
  rcases List.mem_append.mp hm with h | h
  · obtain ⟨d, hd⟩ := mem_load_evtx c e h
    rw [hd] at ht
    exact absurd ht (isoformat_ne_unknown d)
  · rcases mem_load_registry c e h with ⟨_, hs⟩ | ⟨d, hd⟩
    · exact hs
    · rw [hd] at ht
      exact absurd ht (isoformat_ne_unknown d)

theorem replicate_ne_empty (n : Nat) : String.replicate (n + 1) 'a' ≠ "" := by
  intro h
  have := String.length_replicate (n + 1) 'a'
  rw [h] at this
  simp at this

theorem evtxPieces_cmdline (v : String) (hv : v ≠ "") :
    evtxPieces [("CommandLine", v)] = ["CommandLine=" ++ v] := by
  simp [evtxPieces, evtxInterestingKeys, List.lookup, truthy, hv]

/-! ### Claim C1 -/

/-- C1, counterexample.  The claim says two ingestion calls over
byte-identical content store disjoint id sets because ids come from a
random unique token.  In fact `embed_texts` is a pure function of its
arguments whose ids are `f"{case_id}_{i}"`: both calls of the repeated
ingestion submit exactly the id list `["case1_0"]`, which is not disjoint
from itself — the id `case1_0` is assigned by the first call and again by
the second. -/
theorem embed_texts_reingest_id_collision :
    (embed_texts "case1" ["hello"] [meta0]).map AddedBatch.ids
      = some ["case1_0"]
    ∧ ¬ List.Disjoint ["case1_0"] ["case1_0"] := by
  constructor
  · decide
  · intro h
    exact h (List.mem_singleton.mpr rfl) (List.mem_singleton.mpr rfl)

/-- C1 (corrected).  Ids are derived from the positional index, not from a
random token: any two `embed_texts` calls with the same case id and the
same number of texts — in particular repeated ingestion of byte-identical
content — submit identical (fully colliding) id lists, whatever the texts
and metadata are. -/
theorem embed_texts_ids_positional (cid : String) (t1 t2 : List String)
    (m1 m2 : List ChunkMeta) (hlen : t1.length = t2.length) :
    (embed_texts cid t1 m1).map AddedBatch.ids
      = (embed_texts cid t2 m2).map AddedBatch.ids := by
  rcases t1 with _ | ⟨a, t1⟩ <;> rcases t2 with _ | ⟨b, t2⟩ <;>
    simp_all [embed_texts, embed_texts_ids]

/-- C1, witness: two calls with different texts of equal count get the same
id list. -/
theorem embed_texts_ids_positional_witness :
    (embed_texts "case1" ["hello"] [meta0]).map AddedBatch.ids
      = (embed_texts "case1" ["other"] [meta0]).map AddedBatch.ids :=
  embed_texts_ids_positional "case1" ["hello"] ["other"] [meta0] [meta0]
    (by decide)

/-! ### Claim C2 -/

/-- C2, counterexample.  The claim says `buildTimeline` takes a limit
(default 200, clamped to [1, 2000]) and never returns more than
`min(max(N,1),2000)` events.  The function has no limit parameter at all:
on a case with 201 underlying records it returns all 201 events, exceeding
the claimed default bound of 200. -/
theorem build_timeline_unbounded_output :
    (build_timeline bigCase).length = 201
    ∧ ¬ ((build_timeline bigCase).length ≤ 200) := by
  have h : (build_timeline bigCase).length = 201 := by
    set_option maxRecDepth 40000 in decide
  exact ⟨h, by omega⟩

/-- C2 (corrected).  `build_timeline` accepts no limit argument and never
truncates: its output length always equals the total number of loaded
EVTX plus registry events, however many there are. -/
theorem build_timeline_returns_all_events (c : CaseDir) :
    (build_timeline c).length
      = (_load_evtx_events c).length + (_load_registry_events c).length := by
  simp [build_timeline, build_timeline_sorted, List.length_insertionSort]

/-! ### Claim C3 -/

/-- C3, counterexample.  The claim says an event-log record whose timestamp
fails normalization still yields a TimelineEvent marked unknown.  For a
case holding exactly one syntactically valid EVTX record with unparseable
timestamp, the timeline is empty: the record was dropped, not emitted. -/
theorem evtx_unparseable_timestamp_dropped :
    _parse_timestamp rBad.timestamp = none
    ∧ build_timeline c3case = [] := by
  constructor <;> decide

/-- C3 (corrected).  An event-log record whose timestamp fails
normalization is skipped by the loader (`continue`): no TimelineEvent of
any kind is produced for it. -/
theorem evtx_unparseable_timestamp_skipped (r : EvtxRecord)
    (h : _parse_timestamp r.timestamp = none) :
    evtxLineEvent (.record r) = none := by
  simp [evtxLineEvent, h]

/-- C3, witness at the concrete unparseable record. -/
theorem evtx_unparseable_timestamp_skipped_witness :
    evtxLineEvent (.record rBad) = none :=
  evtx_unparseable_timestamp_skipped rBad (by decide)

/-! ### Claim C4 -/

/-- C4, counterexample.  The claim says unknown-time events appear after
every known-time event (for both directions of a sort flag — which does
not exist).  Unknown events are merely flushed to `datetime(9999,12,31)`
and sorted with everyone else, so a known event whose instant lies after
that sentinel comes out *after* an unknown event: here the unknown
registry event is first and the known `9999-12-31T12:00:00` event is
second. -/
theorem unknown_event_precedes_known_event :
    (build_timeline c4case).map TimelineEntry.timestamp
      = ["UNKNOWN_TIME", "9999-12-31T12:00:00"]
    ∧ ((build_timeline c4case).getD 0 defaultEntry).timestamp
        = "UNKNOWN_TIME"
    ∧ ((build_timeline c4case).getD 1 defaultEntry).timestamp
        ≠ "UNKNOWN_TIME" := by
  refine ⟨by decide, by decide, by decide⟩

/-- C4 (corrected).  There is no sort-direction flag; the single ascending
sort places every unknown-time event (sentinel key `9999-12-31T00:00:00`)
after every known-time event whose instant is strictly below the sentinel
— but not after known events at or beyond the sentinel, as the
counterexample shows.  Positionally: if the event at position `j` sorts
strictly below the sentinel, no earlier position `i` holds an unknown-time
event. -/
theorem unknown_events_after_known_below_sentinel (c : CaseDir) (i j : Nat)
    (hj : j < (build_timeline_sorted c).length) (hij : i < j)
    (hbelow : dtKey ((build_timeline_sorted c).getD j defaultEvent).sort_ts
      < dtKey sentinelDT) :
    ((build_timeline_sorted c).getD i defaultEvent).timestamp
      ≠ "UNKNOWN_TIME" := by
  intro hts
  have hi : i < (build_timeline_sorted c).length := lt_trans hij hj
  rw [List.getD_eq_getElem?_getD, List.getElem?_eq_getElem hi] at hts
  rw [List.getD_eq_getElem?_getD, List.getElem?_eq_getElem hj] at hbelow
  simp only [Option.getD_some] at hts hbelow
  have hsorted : List.Sorted eventRel (build_timeline_sorted c) :=
    List.sorted_insertionSort eventRel
      (_load_evtx_events c ++ _load_registry_events c)
  have hrel := (List.pairwise_iff_getElem.mp hsorted) i j hi hj hij
  have hmem : (build_timeline_sorted c)[i] ∈ build_timeline_sorted c :=
    List.getElem_mem hi
  have hsent := unknown_sort_sentinel c _ hmem hts
  have hle : dtKey ((build_timeline_sorted c)[i]).sort_ts
      ≤ dtKey ((build_timeline_sorted c)[j]).sort_ts := hrel
  rw [hsent] at hle
  omega

/-- C4, witness on a case of two known-time events below the sentinel. -/
theorem unknown_events_after_known_below_sentinel_witness :
    ((build_timeline_sorted c5case).getD 0 defaultEvent).timestamp
      ≠ "UNKNOWN_TIME" :=
  unknown_events_after_known_below_sentinel c5case 0 1 (by decide)
    (by decide) (by decide)

/-! ### Claim C5 -/

/-- C5, counterexample.  The claim says the sort direction is caller-chosen
with most-recent-first as the default.  There is no direction flag, and the
output is oldest-first: two known events given newest-first come back
ascending, not in the claimed default descending order. -/
theorem build_timeline_ascending_not_descending :
    (build_timeline c5case).map TimelineEntry.timestamp
      = ["2024-01-01T00:00:00", "2024-01-02T00:00:00"]
    ∧ (build_timeline c5case).map TimelineEntry.timestamp
        ≠ ["2024-01-02T00:00:00", "2024-01-01T00:00:00"] := by
  constructor <;> decide

/-- C5 (corrected).  `build_timeline` accepts no direction flag; its output
(before the `sort_ts` pop) is always sorted ascending — oldest-first — by
the normalized instant. -/
theorem build_timeline_sorted_ascending (c : CaseDir) :
    List.Sorted eventRel (build_timeline_sorted c) :=
  List.sorted_insertionSort eventRel
    (_load_evtx_events c ++ _load_registry_events c)

/-! ### Claim C6 -/

/-- C6, counterexample.  The claim says every description is at most 400
characters.  A single EVTX record with a 500-character `CommandLine`
yields the description `CommandLine=` + 500 characters: length 512. -/
theorem description_exceeds_400 :
    ((build_timeline c6case).getD 0 defaultEntry).description.length = 512
    ∧ ¬ (((build_timeline c6case).getD 0 defaultEntry).description.length
        ≤ 400) := by
  have h : ((build_timeline c6case).getD 0 defaultEntry).description.length
      = 512 := by
    set_option maxRecDepth 4000 in decide
  exact ⟨h, by omega⟩

/-- C6 (corrected).  Neither describer truncates: the description is the
plain space-join of the emitted `name=value` pairs and its length is
unbounded — for every bound `B`, both the event-log and the registry
loaders admit records whose event description is longer than `B`. -/
theorem description_length_unbounded (B : Nat) :
    (∃ (r : EvtxRecord) (ev : TimelineEvent),
        evtxLineEvent (.record r) = some ev ∧ B < ev.description.length)
    ∧ (∃ (r : RegRecord) (ev : TimelineEvent),
        regLineEvent (.record r) = some ev ∧ B < ev.description.length) := by
  constructor
  · refine ⟨⟨some "2024-01-01T00:00:00", none, none, none,
      [("CommandLine", String.replicate (B + 1) 'a')]⟩,
      ⟨PyDateTime.isoformat ⟨2024, 1, 1, 0, 0, 0, 0, none⟩,
        ⟨2024, 1, 1, 0, 0, 0, 0, none⟩, "evtx", "", "", none,
        "CommandLine=" ++ String.replicate (B + 1) 'a'⟩, ?_, ?_⟩
    · have hp : _parse_timestamp (some "2024-01-01T00:00:00")
          = some ⟨2024, 1, 1, 0, 0, 0, 0, none⟩ := by decide
      simp only [evtxLineEvent, hp,
        evtxPieces_cmdline _ (replicate_ne_empty B), intercalate_single, pyOr]
    · simp only [String.length_append, String.length_replicate]
      omega
  · refine ⟨⟨none, none, none, none,
      some (String.replicate (B + 1) 'a'), none⟩,
      ⟨"UNKNOWN_TIME", sentinelDT, "registry", "", "", none,
        "category=" ++ "registry" ++ " HIVE=" ++ "UNKNOWN_HIVE" ++ " Key="
          ++ "" ++ " Name=" ++ "" ++ " Value="
          ++ String.replicate (B + 1) 'a'⟩, ?_, ?_⟩
    · rfl
    · simp only [String.length_append, String.length_replicate]
      omega

/-! ### Claim C7 -/

/-- C7, counterexample.  The claim says each hit presents the store's
distance *as a distance*, neither inverted nor relabeled as a similarity
score.  The hit dict has no `distance` key at all: the raw distance value
(7, numerically unchanged) is stored under the key `score`. -/
theorem search_hit_distance_relabeled :
    (semantic_search_hits res0).getD 0 []
      = [("id", JVal.s "a"), ("score", JVal.n 7),
         ("text", JVal.s "t"), ("metadata", JVal.m [("k", "v")])]
    ∧ ((semantic_search_hits res0).getD 0 []).lookup "distance" = none
    ∧ ((semantic_search_hits res0).getD 0 []).lookup "score"
        = some (JVal.n 7) := by
  refine ⟨by decide, by decide, by decide⟩

/-- C7 (corrected).  Each hit carries the stored id, the original text, its
metadata, and the store's distance value passed through numerically
unchanged — but under the key `score`; no key named `distance` exists. -/
theorem search_hit_fields (res : QueryResult) (i : Nat)
    (hi : i < res.ids.length) :
    ((semantic_search_hits res).getD i []).lookup "distance" = none
    ∧ ((semantic_search_hits res).getD i []).lookup "score"
        = some (JVal.n (res.distances.getD i 0))
    ∧ ((semantic_search_hits res).getD i []).lookup "id"
        = some (JVal.s (res.ids.getD i ""))
    ∧ ((semantic_search_hits res).getD i []).lookup "text"
        = some (JVal.s (res.documents.getD i ""))
    ∧ ((semantic_search_hits res).getD i []).lookup "metadata"
        = some (JVal.m (res.metadatas.getD i [])) := by
  have h : (semantic_search_hits res).getD i []
      = [("id", JVal.s (res.ids.getD i "")),
         ("score", JVal.n (res.distances.getD i 0)),
         ("text", JVal.s (res.documents.getD i "")),
         ("metadata", JVal.m (res.metadatas.getD i []))] := by
    unfold semantic_search_hits
    rw [List.getD_eq_getElem?_getD, List.getElem?_map, List.getElem?_range hi]
    rfl
  rw [h]
  exact ⟨rfl, rfl, rfl, rfl, rfl⟩

/-- C7, witness at the concrete store reply. -/
theorem search_hit_fields_witness :
    ((semantic_search_hits res0).getD 0 []).lookup "distance" = none
    ∧ ((semantic_search_hits res0).getD 0 []).lookup "score"
        = some (JVal.n (res0.distances.getD 0 0))
    ∧ ((semantic_search_hits res0).getD 0 []).lookup "id"
        = some (JVal.s (res0.ids.getD 0 ""))
    ∧ ((semantic_search_hits res0).getD 0 []).lookup "text"
        = some (JVal.s (res0.documents.getD 0 ""))
    ∧ ((semantic_search_hits res0).getD 0 []).lookup "metadata"
        = some (JVal.m (res0.metadatas.getD 0 [])) :=
  search_hit_fields res0 0 (by decide)

/-! ### Claim C8 -/

/-- C8 (code bug).  The claim (and the code's evident intent, which opens
`evtx_summaries.jsonl` for writing and manages it in the `try/finally`)
is that EVTX-derived lines are both chunked and appended to the evtx
summary file.  The chunking happens, but no write to the evtx summary
occurs anywhere in the function, so after every ingestion run its content
is empty — concretely, a case with one evtx line `hello world` yields that
chunk but an empty evtx summary. -/
theorem evtx_summary_never_written :
    (∀ (c : IngestCase) (cid : String),
        (build_and_index_case_corpus c cid).evtxSummary = [])
    ∧ (build_and_index_case_corpus ingestCase0 "caseA").chunks.map Chunk.text
        = ["hello world"]
    ∧ (build_and_index_case_corpus ingestCase0 "caseA").evtxSummary = [] := by
  exact ⟨fun c cid => rfl, by decide, rfl⟩

/-! ### Claim C9 -/

/-- C9 (confirmed).  The Timestamp Normalizer is total — its embedding is a
total function into `Option`, with the parser's failure (`ValueError`)
caught — and every instant it returns is offset-free: `None` and the empty
string map to the unparseable marker, and any successfully parsed datetime
has its offset dropped, so results are always comparable naive values. -/
theorem parse_timestamp_total_and_naive :
    (∀ (ts : Option String) (d : PyDateTime),
        _parse_timestamp ts = some d → d.tzOffsetMinutes = none)
    ∧ _parse_timestamp none = none ∧ _parse_timestamp (some "") = none := by
  refine ⟨?_, rfl, by decide⟩
  intro ts d h
  cases ts with
  | none => simp [_parse_timestamp] at h
  | some s =>
    by_cases hs : s = ""
    · simp [_parse_timestamp, hs] at h
    · cases hiso : fromisoformat s with
      | none => simp [_parse_timestamp, hs, hiso] at h
      | some dt =>
        simp [_parse_timestamp, hs, hiso] at h
        cases htz : dt.tzOffsetMinutes with
        | none => rw [← h]; simp [htz]
        | some o => rw [← h]; simp [htz]

/-- C9, witness at an offset-bearing input. -/
theorem parse_timestamp_total_and_naive_witness :
    (⟨2024, 1, 2, 3, 4, 5, 0, none⟩ : PyDateTime).tzOffsetMinutes = none :=
  parse_timestamp_total_and_naive.1 (some "2024-01-02T03:04:05+06:30")
    ⟨2024, 1, 2, 3, 4, 5, 0, none⟩ (by decide)

/-! ### Claim C10 -/

/-- C10 (confirmed).  Offsets are discarded, not converted: for *every*
string the parser accepts — in particular every parseable offset-bearing
string — the normalizer returns exactly the parsed wall-clock (local)
fields with the offset field merely set to `none`, never shifted to UTC.
Consequently equal wall-clock digits under different offsets (distinct
real instants) normalize to the same naive value; the same real instant
written at two offsets normalizes to two different values; and in a
timeline the known events are ordered by local clock — `23:00+14:00`
denotes an earlier real instant than `10:00+00:00` yet sorts after it. -/
theorem parse_timestamp_keeps_wall_clock_discards_offset :
    (∀ (s : String) (d : PyDateTime), fromisoformat s = some d →
        _parse_timestamp (some s)
          = some ⟨d.year, d.month, d.day, d.hour, d.minute, d.second,
              d.microsecond, none⟩)
    ∧ _parse_timestamp (some "2026-01-05T10:00:00+00:00")
      = _parse_timestamp (some "2026-01-05T10:00:00+05:00")
    ∧ (fromisoformat "2026-01-05T10:00:00+00:00").map realInstantMicros
        ≠ (fromisoformat "2026-01-05T10:00:00+05:00").map realInstantMicros
    ∧ _parse_timestamp (some "2026-01-05T10:00:00+00:00")
        ≠ _parse_timestamp (some "2026-01-05T15:00:00+05:00")
    ∧ (fromisoformat "2026-01-05T10:00:00+00:00").map realInstantMicros
        = (fromisoformat "2026-01-05T15:00:00+05:00").map realInstantMicros
    ∧ (build_timeline cwCase).map TimelineEntry.timestamp
        = ["2026-01-05T10:00:00", "2026-01-05T23:00:00"]
    ∧ ((fromisoformat "2026-01-05T23:00:00+14:00").map
          realInstantMicros).getD 0
        < ((fromisoformat "2026-01-05T10:00:00+00:00").map
          realInstantMicros).getD 0 := by
  refine ⟨?_, by decide, by decide, by decide, by decide, by decide,
    by decide⟩
  intro s d h
  have hs : s ≠ "" := by
    intro he
    have hemp : fromisoformat "" = none := by decide
    rw [he, hemp] at h
    exact Option.noConfusion h
  obtain ⟨y, mo, dd, hh, mi, s2, us, tz⟩ := d
  cases tz with
  | none => simp [_parse_timestamp, hs, h]
  | some o => simp [_parse_timestamp, hs, h]

/-- C10, witness: a parseable string with the offset `+14:00`; its
normalization keeps the 23:00 local clock and drops the offset. -/
theorem parse_timestamp_keeps_wall_clock_discards_offset_witness :
    _parse_timestamp (some "2026-01-05T23:00:00+14:00")
      = some ⟨2026, 1, 5, 23, 0, 0, 0, none⟩ :=
  parse_timestamp_keeps_wall_clock_discards_offset.1
    "2026-01-05T23:00:00+14:00" ⟨2026, 1, 5, 23, 0, 0, 0, some 840⟩
    (by decide)

end AILog
